import Mathlib

/-!
# Configuration builder of the Kinesis client library

A shallow embedding of `clientlibrary/config/kcl-config.go`: the constructor
`NewKinesisClientLibConfig` and the chained `With*` overrides of
`KinesisClientLibConfiguration`.

Modelling conventions.

* A Go panic raised by a validation helper is an `Except.error`.
* The `With*` methods have a pointer receiver and mutate it in place.  A call is
  therefore modelled by a `Call`: the value of the receiver object when the call
  ends, together with whether the call returned or panicked.  A panic keeps the
  object as it was when the panic was raised.
* Go `int` arguments are only compared with zero and stored, never computed
  with, so they are integers.
* The helpers `empty`, `checkIsValueNotEmpty`, `checkIsValuePositive`,
  `newInitialPosition`, `newInitialPositionAtTimestamp`, the type declarations
  and the `DEFAULT_*` constants live in other files of the package; the
  helpers and types are modelled from the specification, the constants and the
  value returned by `utils.MustNewUUID` are parameters.
-/

namespace KclConfig

/-! ## Data model -/

/-- Modelled from the spec: the single error kind `InvalidArgument` raised by the
validation helpers (declared outside `kcl-config.go`); it records the key the
caller of the helper passed. -/
inductive ConfigError where
  | InvalidArgument (key : String)
  deriving DecidableEq, Repr

/-- Modelled from the spec: the enumerated initial-position mode (its declaration
is outside `kcl-config.go`): latest, earliest-available, at-explicit-timestamp. -/
inductive InitialPositionInStream where
  | LATEST
  | TRIM_HORIZON
  | AT_TIMESTAMP
  deriving DecidableEq, Repr

/-- An instant of `time.Time`, as a number of nanoseconds. -/
abbrev Time := Int

/-- Modelled from the spec: the extended form of the initial position (its
declaration is outside `kcl-config.go`): a mode and an optional timestamp
(`*time.Time`, `none` for `nil`). -/
structure InitialPositionInStreamExtended where
  Position : InitialPositionInStream
  Timestamp : Option Time
  deriving DecidableEq, Repr

/-- The fields of `KinesisClientLibConfiguration` that the constructor
populates (lines 19-46). -/
structure KinesisClientLibConfiguration where
  ApplicationName : String
  TableName : String
  StreamName : String
  WorkerID : String
  KinesisEndpoint : String
  InitialPositionInStream : InitialPositionInStream
  InitialPositionInStreamExtended : InitialPositionInStreamExtended
  FailoverTimeMillis : Int
  MaxRecords : Int
  IdleTimeBetweenReadsInMillis : Int
  CallProcessRecordsEvenForEmptyRecordList : Bool
  ParentShardPollIntervalMillis : Int
  ShardSyncIntervalMillis : Int
  CleanupTerminatedShardsBeforeExpiry : Bool
  TaskBackoffTimeMillis : Int
  MetricsBufferTimeMillis : Int
  MetricsMaxQueueSize : Int
  ValidateSequenceNumberBeforeCheckpointing : Bool
  RegionName : String
  ShutdownGraceMillis : Int
  MaxLeasesForWorker : Int
  MaxLeasesToStealAtOneTime : Int
  InitialLeaseTableReadCapacity : Int
  InitialLeaseTableWriteCapacity : Int
  SkipShardSyncAtWorkerInitializationIfLeasesExist : Bool
  WorkerThreadPoolSize : Int
  deriving DecidableEq, Repr

/-- The named `DEFAULT_*` constants the constructor reads.  Their declarations
are outside `kcl-config.go`, so the table is a parameter of the constructor. -/
structure Defaults where
  DEFAULT_INITIAL_POSITION_IN_STREAM : InitialPositionInStream
  DEFAULT_FAILOVER_TIME_MILLIS : Int
  DEFAULT_MAX_RECORDS : Int
  DEFAULT_IDLETIME_BETWEEN_READS_MILLIS : Int
  DEFAULT_DONT_CALL_PROCESS_RECORDS_FOR_EMPTY_RECORD_LIST : Bool
  DEFAULT_PARENT_SHARD_POLL_INTERVAL_MILLIS : Int
  DEFAULT_SHARD_SYNC_INTERVAL_MILLIS : Int
  DEFAULT_CLEANUP_LEASES_UPON_SHARDS_COMPLETION : Bool
  DEFAULT_TASK_BACKOFF_TIME_MILLIS : Int
  DEFAULT_METRICS_BUFFER_TIME_MILLIS : Int
  DEFAULT_METRICS_MAX_QUEUE_SIZE : Int
  DEFAULT_VALIDATE_SEQUENCE_NUMBER_BEFORE_CHECKPOINTING : Bool
  DEFAULT_SHUTDOWN_GRACE_MILLIS : Int
  DEFAULT_MAX_LEASES_FOR_WORKER : Int
  DEFAULT_MAX_LEASES_TO_STEAL_AT_ONE_TIME : Int
  DEFAULT_INITIAL_LEASE_TABLE_READ_CAPACITY : Int
  DEFAULT_INITIAL_LEASE_TABLE_WRITE_CAPACITY : Int
  DEFAULT_SKIP_SHARD_SYNC_AT_STARTUP_IF_LEASES_EXIST : Bool
  deriving DecidableEq, Repr

/-- The state of the receiver object at the end of a method call, and whether
the call returned the receiver (`.ok ()`) or panicked. -/
structure Call where
  config : KinesisClientLibConfiguration
  result : Except ConfigError Unit

/-! ## Helpers declared outside `kcl-config.go` -/

/-- Modelled from the spec: `empty` (declared outside `kcl-config.go`) tells
whether a string is the empty string. -/
def empty (s : String) : Bool := s == ""

/-- Modelled from the spec: `checkIsValueNotEmpty` (declared outside
`kcl-config.go`): string fields must be non-empty, fails with
`InvalidArgument` otherwise. -/
def checkIsValueNotEmpty (key : String) (value : String) : Except ConfigError Unit :=
  if empty value then .error (.InvalidArgument key) else .ok ()

/-- Modelled from the spec: `checkIsValuePositive` (declared outside
`kcl-config.go`): numeric fields must be strictly positive, fails with
`InvalidArgument` otherwise. -/
def checkIsValuePositive (key : String) (value : Int) : Except ConfigError Unit :=
  if value ≤ 0 then .error (.InvalidArgument key) else .ok ()

/-- Modelled from the spec: `newInitialPosition` (declared outside
`kcl-config.go`) builds the extended form matching a mode; it carries no
timestamp. -/
def newInitialPosition (position : InitialPositionInStream) :
    InitialPositionInStreamExtended :=
  { Position := position, Timestamp := none }

/-- Modelled from the spec: `newInitialPositionAtTimestamp` (declared outside
`kcl-config.go`) builds the extended form of mode at-explicit-timestamp
carrying the given timestamp, unvalidated. -/
def newInitialPositionAtTimestamp (timestamp : Option Time) :
    InitialPositionInStreamExtended :=
  { Position := .AT_TIMESTAMP, Timestamp := timestamp }

/-! ## The constructor (lines 9-47) -/

/-- The constructor `NewKinesisClientLibConfig`.  `d` is the table of `DEFAULT_*`
constants and `uuid` the string `utils.MustNewUUID()` returns when it is
called. -/
def NewKinesisClientLibConfig (d : Defaults) (uuid : String)
    (applicationName streamName workerID : String) :
    Except ConfigError KinesisClientLibConfiguration := do
  checkIsValueNotEmpty "ApplicationName" applicationName
  checkIsValueNotEmpty "StreamName" streamName
  checkIsValueNotEmpty "ApplicationName" applicationName
  let workerID := if empty workerID then uuid else workerID
  pure {
    ApplicationName := applicationName
    TableName := applicationName
    StreamName := streamName
    WorkerID := workerID
    KinesisEndpoint := ""
    InitialPositionInStream := d.DEFAULT_INITIAL_POSITION_IN_STREAM
    InitialPositionInStreamExtended := newInitialPosition d.DEFAULT_INITIAL_POSITION_IN_STREAM
    FailoverTimeMillis := d.DEFAULT_FAILOVER_TIME_MILLIS
    MaxRecords := d.DEFAULT_MAX_RECORDS
    IdleTimeBetweenReadsInMillis := d.DEFAULT_IDLETIME_BETWEEN_READS_MILLIS
    CallProcessRecordsEvenForEmptyRecordList :=
      d.DEFAULT_DONT_CALL_PROCESS_RECORDS_FOR_EMPTY_RECORD_LIST
    ParentShardPollIntervalMillis := d.DEFAULT_PARENT_SHARD_POLL_INTERVAL_MILLIS
    ShardSyncIntervalMillis := d.DEFAULT_SHARD_SYNC_INTERVAL_MILLIS
    CleanupTerminatedShardsBeforeExpiry := d.DEFAULT_CLEANUP_LEASES_UPON_SHARDS_COMPLETION
    TaskBackoffTimeMillis := d.DEFAULT_TASK_BACKOFF_TIME_MILLIS
    MetricsBufferTimeMillis := d.DEFAULT_METRICS_BUFFER_TIME_MILLIS
    MetricsMaxQueueSize := d.DEFAULT_METRICS_MAX_QUEUE_SIZE
    ValidateSequenceNumberBeforeCheckpointing :=
      d.DEFAULT_VALIDATE_SEQUENCE_NUMBER_BEFORE_CHECKPOINTING
    RegionName := ""
    ShutdownGraceMillis := d.DEFAULT_SHUTDOWN_GRACE_MILLIS
    MaxLeasesForWorker := d.DEFAULT_MAX_LEASES_FOR_WORKER
    MaxLeasesToStealAtOneTime := d.DEFAULT_MAX_LEASES_TO_STEAL_AT_ONE_TIME
    InitialLeaseTableReadCapacity := d.DEFAULT_INITIAL_LEASE_TABLE_READ_CAPACITY
    InitialLeaseTableWriteCapacity := d.DEFAULT_INITIAL_LEASE_TABLE_WRITE_CAPACITY
    SkipShardSyncAtWorkerInitializationIfLeasesExist :=
      d.DEFAULT_SKIP_SHARD_SYNC_AT_STARTUP_IF_LEASES_EXIST
    WorkerThreadPoolSize := 1 }

/-! ## The overrides (lines 49-153) -/

/-- Lines 50-53: no validation. -/
def WithTableName (c : KinesisClientLibConfiguration) (tableName : String) : Call :=
  ⟨{ c with TableName := tableName }, .ok ()⟩

/-- Lines 55-58: no validation. -/
def WithKinesisEndpoint (c : KinesisClientLibConfiguration) (kinesisEndpoint : String) :
    Call :=
  ⟨{ c with KinesisEndpoint := kinesisEndpoint }, .ok ()⟩

/-- Lines 60-64. -/
def WithInitialPositionInStream (c : KinesisClientLibConfiguration)
    (initialPositionInStream : InitialPositionInStream) : Call :=
  ⟨{ c with
      InitialPositionInStream := initialPositionInStream
      InitialPositionInStreamExtended := newInitialPosition initialPositionInStream },
    .ok ()⟩

/-- Lines 66-70. -/
def WithTimestampAtInitialPositionInStream (c : KinesisClientLibConfiguration)
    (timestamp : Option Time) : Call :=
  ⟨{ c with
      InitialPositionInStream := .AT_TIMESTAMP
      InitialPositionInStreamExtended := newInitialPositionAtTimestamp timestamp },
    .ok ()⟩

/-- Lines 72-76. -/
def WithFailoverTimeMillis (c : KinesisClientLibConfiguration) (failoverTimeMillis : Int) :
    Call :=
  match checkIsValuePositive "FailoverTimeMillis" failoverTimeMillis with
  | .error e => ⟨c, .error e⟩
  | .ok () => ⟨{ c with FailoverTimeMillis := failoverTimeMillis }, .ok ()⟩

/-- Lines 78-82. -/
def WithShardSyncIntervalMillis (c : KinesisClientLibConfiguration)
    (shardSyncIntervalMillis : Int) : Call :=
  match checkIsValuePositive "ShardSyncIntervalMillis" shardSyncIntervalMillis with
  | .error e => ⟨c, .error e⟩
  | .ok () => ⟨{ c with ShardSyncIntervalMillis := shardSyncIntervalMillis }, .ok ()⟩

/-- Lines 84-88. -/
def WithMaxRecords (c : KinesisClientLibConfiguration) (maxRecords : Int) : Call :=
  match checkIsValuePositive "MaxRecords" maxRecords with
  | .error e => ⟨c, .error e⟩
  | .ok () => ⟨{ c with MaxRecords := maxRecords }, .ok ()⟩

/-- Lines 110-114. -/
def WithIdleTimeBetweenReadsInMillis (c : KinesisClientLibConfiguration)
    (idleTimeBetweenReadsInMillis : Int) : Call :=
  match checkIsValuePositive "IdleTimeBetweenReadsInMillis" idleTimeBetweenReadsInMillis with
  | .error e => ⟨c, .error e⟩
  | .ok () =>
    ⟨{ c with IdleTimeBetweenReadsInMillis := idleTimeBetweenReadsInMillis }, .ok ()⟩

/-- Lines 116-119: no validation. -/
def WithCallProcessRecordsEvenForEmptyRecordList (c : KinesisClientLibConfiguration)
    (callProcessRecordsEvenForEmptyRecordList : Bool) : Call :=
  ⟨{ c with
      CallProcessRecordsEvenForEmptyRecordList := callProcessRecordsEvenForEmptyRecordList },
    .ok ()⟩

/-- Lines 121-125. -/
def WithTaskBackoffTimeMillis (c : KinesisClientLibConfiguration)
    (taskBackoffTimeMillis : Int) : Call :=
  match checkIsValuePositive "TaskBackoffTimeMillis" taskBackoffTimeMillis with
  | .error e => ⟨c, .error e⟩
  | .ok () => ⟨{ c with TaskBackoffTimeMillis := taskBackoffTimeMillis }, .ok ()⟩

/-- Lines 128-132. -/
def WithMetricsBufferTimeMillis (c : KinesisClientLibConfiguration)
    (metricsBufferTimeMillis : Int) : Call :=
  match checkIsValuePositive "MetricsBufferTimeMillis" metricsBufferTimeMillis with
  | .error e => ⟨c, .error e⟩
  | .ok () => ⟨{ c with MetricsBufferTimeMillis := metricsBufferTimeMillis }, .ok ()⟩

/-- Lines 135-139. -/
def WithMetricsMaxQueueSize (c : KinesisClientLibConfiguration)
    (metricsMaxQueueSize : Int) : Call :=
  match checkIsValuePositive "MetricsMaxQueueSize" metricsMaxQueueSize with
  | .error e => ⟨c, .error e⟩
  | .ok () => ⟨{ c with MetricsMaxQueueSize := metricsMaxQueueSize }, .ok ()⟩

/-- Lines 142-146. -/
def WithRegionName (c : KinesisClientLibConfiguration) (regionName : String) : Call :=
  match checkIsValueNotEmpty "RegionName" regionName with
  | .error e => ⟨c, .error e⟩
  | .ok () => ⟨{ c with RegionName := regionName }, .ok ()⟩

/-- Lines 149-153. -/
def WithWorkerThreadPoolSize (c : KinesisClientLibConfiguration) (n : Int) : Call :=
  match checkIsValuePositive "WorkerThreadPoolSize" n with
  | .error e => ⟨c, .error e⟩
  | .ok () => ⟨{ c with WorkerThreadPoolSize := n }, .ok ()⟩

/-! ## Chains of overrides and reachable configurations -/

/-- One override call together with its argument. -/
inductive Override where
  | WithTableName (tableName : String)
  | WithKinesisEndpoint (kinesisEndpoint : String)
  | WithInitialPositionInStream (initialPositionInStream : InitialPositionInStream)
  | WithTimestampAtInitialPositionInStream (timestamp : Option Time)
  | WithFailoverTimeMillis (failoverTimeMillis : Int)
  | WithShardSyncIntervalMillis (shardSyncIntervalMillis : Int)
  | WithMaxRecords (maxRecords : Int)
  | WithIdleTimeBetweenReadsInMillis (idleTimeBetweenReadsInMillis : Int)
  | WithCallProcessRecordsEvenForEmptyRecordList (b : Bool)
  | WithTaskBackoffTimeMillis (taskBackoffTimeMillis : Int)
  | WithMetricsBufferTimeMillis (metricsBufferTimeMillis : Int)
  | WithMetricsMaxQueueSize (metricsMaxQueueSize : Int)
  | WithRegionName (regionName : String)
  | WithWorkerThreadPoolSize (n : Int)
  deriving DecidableEq, Repr

/-- Performs the override call `o` on the receiver `c`. -/
def applyOverride (c : KinesisClientLibConfiguration) : Override → Call
  | .WithTableName s => WithTableName c s
  | .WithKinesisEndpoint s => WithKinesisEndpoint c s
  | .WithInitialPositionInStream p => WithInitialPositionInStream c p
  | .WithTimestampAtInitialPositionInStream t => WithTimestampAtInitialPositionInStream c t
  | .WithFailoverTimeMillis v => WithFailoverTimeMillis c v
  | .WithShardSyncIntervalMillis v => WithShardSyncIntervalMillis c v
  | .WithMaxRecords v => WithMaxRecords c v
  | .WithIdleTimeBetweenReadsInMillis v => WithIdleTimeBetweenReadsInMillis c v
  | .WithCallProcessRecordsEvenForEmptyRecordList b =>
    WithCallProcessRecordsEvenForEmptyRecordList c b
  | .WithTaskBackoffTimeMillis v => WithTaskBackoffTimeMillis c v
  | .WithMetricsBufferTimeMillis v => WithMetricsBufferTimeMillis c v
  | .WithMetricsMaxQueueSize v => WithMetricsMaxQueueSize c v
  | .WithRegionName s => WithRegionName c s
  | .WithWorkerThreadPoolSize n => WithWorkerThreadPoolSize c n

/-- A fluent chain `c.WithA(a).WithB(b)...`: each call is made on the receiver the
previous one returned, and a panic ends the chain. -/
def chain (c : KinesisClientLibConfiguration) : List Override → Call
  | [] => ⟨c, .ok ()⟩
  | o :: os =>
    match applyOverride c o with
    | ⟨c1, .ok ()⟩ => chain c1 os
    | ⟨c1, .error e⟩ => ⟨c1, .error e⟩

/-- The program `NewKinesisClientLibConfig(app, stream, w).WithA(a)...`: the
configuration it ends with, or the first panic. -/
def build (d : Defaults) (uuid applicationName streamName workerID : String)
    (os : List Override) : Except ConfigError KinesisClientLibConfiguration :=
  match NewKinesisClientLibConfig d uuid applicationName streamName workerID with
  | .error e => .error e
  | .ok c =>
    match chain c os with
    | ⟨c1, .ok ()⟩ => .ok c1
    | ⟨_, .error e⟩ => .error e

/-- The configurations a caller can hold: the result of the constructor, followed
by any finite sequence of overrides that returned. -/
inductive Reachable (d : Defaults) (uuid applicationName streamName workerID : String) :
    KinesisClientLibConfiguration → Prop where
  | construct {c : KinesisClientLibConfiguration} :
      NewKinesisClientLibConfig d uuid applicationName streamName workerID = .ok c →
      Reachable d uuid applicationName streamName workerID c
  | override {c : KinesisClientLibConfiguration} (o : Override) :
      Reachable d uuid applicationName streamName workerID c →
      (applyOverride c o).result = .ok () →
      Reachable d uuid applicationName streamName workerID (applyOverride c o).config

/-- The numeric fields that have an override method. -/
inductive NumericField where
  | FailoverTimeMillis
  | ShardSyncIntervalMillis
  | MaxRecords
  | IdleTimeBetweenReadsInMillis
  | TaskBackoffTimeMillis
  | MetricsBufferTimeMillis
  | MetricsMaxQueueSize
  | WorkerThreadPoolSize
  deriving DecidableEq, Repr

/-- Reads a numeric field of a configuration. -/
def NumericField.get (c : KinesisClientLibConfiguration) : NumericField → Int
  | .FailoverTimeMillis => c.FailoverTimeMillis
  | .ShardSyncIntervalMillis => c.ShardSyncIntervalMillis
  | .MaxRecords => c.MaxRecords
  | .IdleTimeBetweenReadsInMillis => c.IdleTimeBetweenReadsInMillis
  | .TaskBackoffTimeMillis => c.TaskBackoffTimeMillis
  | .MetricsBufferTimeMillis => c.MetricsBufferTimeMillis
  | .MetricsMaxQueueSize => c.MetricsMaxQueueSize
  | .WorkerThreadPoolSize => c.WorkerThreadPoolSize

/-- The override method of a numeric field. -/
def NumericField.override (c : KinesisClientLibConfiguration) (v : Int) :
    NumericField → Call
  | .FailoverTimeMillis => WithFailoverTimeMillis c v
  | .ShardSyncIntervalMillis => WithShardSyncIntervalMillis c v
  | .MaxRecords => WithMaxRecords c v
  | .IdleTimeBetweenReadsInMillis => WithIdleTimeBetweenReadsInMillis c v
  | .TaskBackoffTimeMillis => WithTaskBackoffTimeMillis c v
  | .MetricsBufferTimeMillis => WithMetricsBufferTimeMillis c v
  | .MetricsMaxQueueSize => WithMetricsMaxQueueSize c v
  | .WorkerThreadPoolSize => WithWorkerThreadPoolSize c v

/-- The key under which the override of a numeric field reports a bad value. -/
def NumericField.key : NumericField → String
  | .FailoverTimeMillis => "FailoverTimeMillis"
  | .ShardSyncIntervalMillis => "ShardSyncIntervalMillis"
  | .MaxRecords => "MaxRecords"
  | .IdleTimeBetweenReadsInMillis => "IdleTimeBetweenReadsInMillis"
  | .TaskBackoffTimeMillis => "TaskBackoffTimeMillis"
  | .MetricsBufferTimeMillis => "MetricsBufferTimeMillis"
  | .MetricsMaxQueueSize => "MetricsMaxQueueSize"
  | .WorkerThreadPoolSize => "WorkerThreadPoolSize"

/-- The defaults of the seven numeric fields with an override that the
constructor reads from a `DEFAULT_*` constant are strictly positive (the
eighth, `WorkerThreadPoolSize`, is the literal 1). -/
def Defaults.Positive (d : Defaults) : Prop :=
  0 < d.DEFAULT_FAILOVER_TIME_MILLIS ∧ 0 < d.DEFAULT_SHARD_SYNC_INTERVAL_MILLIS ∧
  0 < d.DEFAULT_MAX_RECORDS ∧ 0 < d.DEFAULT_IDLETIME_BETWEEN_READS_MILLIS ∧
  0 < d.DEFAULT_TASK_BACKOFF_TIME_MILLIS ∧ 0 < d.DEFAULT_METRICS_BUFFER_TIME_MILLIS ∧
  0 < d.DEFAULT_METRICS_MAX_QUEUE_SIZE

instance (d : Defaults) : Decidable d.Positive := by
  unfold Defaults.Positive
  infer_instance

/-- The consistency of the initial position as the specification words it: the
extended form has the mode of the simple field, and it has a timestamp if and
only if the mode is at-explicit-timestamp. -/
def PositionConsistent (c : KinesisClientLibConfiguration) : Prop :=
  c.InitialPositionInStreamExtended.Position = c.InitialPositionInStream ∧
  (c.InitialPositionInStreamExtended.Timestamp.isSome = true ↔
    c.InitialPositionInStream = .AT_TIMESTAMP)

instance (c : KinesisClientLibConfiguration) : Decidable (PositionConsistent c) := by
  unfold PositionConsistent
  infer_instance

/-- The part of the consistency that every reachable configuration has: the
extended form has the mode of the simple field, and a timestamp is present
only in mode at-explicit-timestamp. -/
def PositionCoherent (c : KinesisClientLibConfiguration) : Prop :=
  c.InitialPositionInStreamExtended.Position = c.InitialPositionInStream ∧
  (c.InitialPositionInStreamExtended.Timestamp.isSome = true →
    c.InitialPositionInStream = .AT_TIMESTAMP)

instance (c : KinesisClientLibConfiguration) : Decidable (PositionCoherent c) := by
  unfold PositionCoherent
  infer_instance

/-! ## Fields and the frame of an override -/

/-- The names of the fields of `KinesisClientLibConfiguration`. -/
inductive Field where
  | ApplicationName
  | TableName
  | StreamName
  | WorkerID
  | KinesisEndpoint
  | InitialPositionInStream
  | InitialPositionInStreamExtended
  | FailoverTimeMillis
  | MaxRecords
  | IdleTimeBetweenReadsInMillis
  | CallProcessRecordsEvenForEmptyRecordList
  | ParentShardPollIntervalMillis
  | ShardSyncIntervalMillis
  | CleanupTerminatedShardsBeforeExpiry
  | TaskBackoffTimeMillis
  | MetricsBufferTimeMillis
  | MetricsMaxQueueSize
  | ValidateSequenceNumberBeforeCheckpointing
  | RegionName
  | ShutdownGraceMillis
  | MaxLeasesForWorker
  | MaxLeasesToStealAtOneTime
  | InitialLeaseTableReadCapacity
  | InitialLeaseTableWriteCapacity
  | SkipShardSyncAtWorkerInitializationIfLeasesExist
  | WorkerThreadPoolSize
  deriving DecidableEq, Repr

/-- Two configurations hold the same value in the field `f`. -/
def Field.agree (c1 c2 : KinesisClientLibConfiguration) : Field → Prop
  | .ApplicationName => c1.ApplicationName = c2.ApplicationName
  | .TableName => c1.TableName = c2.TableName
  | .StreamName => c1.StreamName = c2.StreamName
  | .WorkerID => c1.WorkerID = c2.WorkerID
  | .KinesisEndpoint => c1.KinesisEndpoint = c2.KinesisEndpoint
  | .InitialPositionInStream => c1.InitialPositionInStream = c2.InitialPositionInStream
  | .InitialPositionInStreamExtended => c1.InitialPositionInStreamExtended = c2.InitialPositionInStreamExtended
  | .FailoverTimeMillis => c1.FailoverTimeMillis = c2.FailoverTimeMillis
  | .MaxRecords => c1.MaxRecords = c2.MaxRecords
  | .IdleTimeBetweenReadsInMillis => c1.IdleTimeBetweenReadsInMillis = c2.IdleTimeBetweenReadsInMillis
  | .CallProcessRecordsEvenForEmptyRecordList => c1.CallProcessRecordsEvenForEmptyRecordList = c2.CallProcessRecordsEvenForEmptyRecordList
  | .ParentShardPollIntervalMillis => c1.ParentShardPollIntervalMillis = c2.ParentShardPollIntervalMillis
  | .ShardSyncIntervalMillis => c1.ShardSyncIntervalMillis = c2.ShardSyncIntervalMillis
  | .CleanupTerminatedShardsBeforeExpiry => c1.CleanupTerminatedShardsBeforeExpiry = c2.CleanupTerminatedShardsBeforeExpiry
  | .TaskBackoffTimeMillis => c1.TaskBackoffTimeMillis = c2.TaskBackoffTimeMillis
  | .MetricsBufferTimeMillis => c1.MetricsBufferTimeMillis = c2.MetricsBufferTimeMillis
  | .MetricsMaxQueueSize => c1.MetricsMaxQueueSize = c2.MetricsMaxQueueSize
  | .ValidateSequenceNumberBeforeCheckpointing => c1.ValidateSequenceNumberBeforeCheckpointing = c2.ValidateSequenceNumberBeforeCheckpointing
  | .RegionName => c1.RegionName = c2.RegionName
  | .ShutdownGraceMillis => c1.ShutdownGraceMillis = c2.ShutdownGraceMillis
  | .MaxLeasesForWorker => c1.MaxLeasesForWorker = c2.MaxLeasesForWorker
  | .MaxLeasesToStealAtOneTime => c1.MaxLeasesToStealAtOneTime = c2.MaxLeasesToStealAtOneTime
  | .InitialLeaseTableReadCapacity => c1.InitialLeaseTableReadCapacity = c2.InitialLeaseTableReadCapacity
  | .InitialLeaseTableWriteCapacity => c1.InitialLeaseTableWriteCapacity = c2.InitialLeaseTableWriteCapacity
  | .SkipShardSyncAtWorkerInitializationIfLeasesExist => c1.SkipShardSyncAtWorkerInitializationIfLeasesExist = c2.SkipShardSyncAtWorkerInitializationIfLeasesExist
  | .WorkerThreadPoolSize => c1.WorkerThreadPoolSize = c2.WorkerThreadPoolSize

/-- The fields an override method assigns (the left-hand sides of its assignment
statements). -/
def Override.assigns : Override → List Field
  | .WithTableName _ => [.TableName]
  | .WithKinesisEndpoint _ => [.KinesisEndpoint]
  | .WithInitialPositionInStream _ =>
    [.InitialPositionInStream, .InitialPositionInStreamExtended]
  | .WithTimestampAtInitialPositionInStream _ =>
    [.InitialPositionInStream, .InitialPositionInStreamExtended]
  | .WithFailoverTimeMillis _ => [.FailoverTimeMillis]
  | .WithShardSyncIntervalMillis _ => [.ShardSyncIntervalMillis]
  | .WithMaxRecords _ => [.MaxRecords]
  | .WithIdleTimeBetweenReadsInMillis _ => [.IdleTimeBetweenReadsInMillis]
  | .WithCallProcessRecordsEvenForEmptyRecordList _ =>
    [.CallProcessRecordsEvenForEmptyRecordList]
  | .WithTaskBackoffTimeMillis _ => [.TaskBackoffTimeMillis]
  | .WithMetricsBufferTimeMillis _ => [.MetricsBufferTimeMillis]
  | .WithMetricsMaxQueueSize _ => [.MetricsMaxQueueSize]
  | .WithRegionName _ => [.RegionName]
  | .WithWorkerThreadPoolSize _ => [.WorkerThreadPoolSize]

/-- Modelled from the spec: the value of the constant
`DEFAULT_INITIAL_POSITION_IN_STREAM` (declared outside `kcl-config.go`): the
library default of the initial-position mode is earliest-available. -/
def DEFAULT_INITIAL_POSITION_IN_STREAM : InitialPositionInStream := .TRIM_HORIZON

/-! ## Concrete inputs -/

/-- A table of defaults for concrete runs: earliest-available and `false` as the
specification documents them, and positive placeholder numbers where it only
says "library default". -/
def sampleDefaults : Defaults :=
  { DEFAULT_INITIAL_POSITION_IN_STREAM := .TRIM_HORIZON
    DEFAULT_FAILOVER_TIME_MILLIS := 10000
    DEFAULT_MAX_RECORDS := 10000
    DEFAULT_IDLETIME_BETWEEN_READS_MILLIS := 1000
    DEFAULT_DONT_CALL_PROCESS_RECORDS_FOR_EMPTY_RECORD_LIST := false
    DEFAULT_PARENT_SHARD_POLL_INTERVAL_MILLIS := 10000
    DEFAULT_SHARD_SYNC_INTERVAL_MILLIS := 60000
    DEFAULT_CLEANUP_LEASES_UPON_SHARDS_COMPLETION := true
    DEFAULT_TASK_BACKOFF_TIME_MILLIS := 500
    DEFAULT_METRICS_BUFFER_TIME_MILLIS := 10000
    DEFAULT_METRICS_MAX_QUEUE_SIZE := 10000
    DEFAULT_VALIDATE_SEQUENCE_NUMBER_BEFORE_CHECKPOINTING := true
    DEFAULT_SHUTDOWN_GRACE_MILLIS := 5000
    DEFAULT_MAX_LEASES_FOR_WORKER := 2147483647
    DEFAULT_MAX_LEASES_TO_STEAL_AT_ONE_TIME := 1
    DEFAULT_INITIAL_LEASE_TABLE_READ_CAPACITY := 10
    DEFAULT_INITIAL_LEASE_TABLE_WRITE_CAPACITY := 10
    DEFAULT_SKIP_SHARD_SYNC_AT_STARTUP_IF_LEASES_EXIST := false }

/-- The configuration `NewKinesisClientLibConfig("app", "stream", "worker-1")`
returns under `sampleDefaults`. -/
def sampleConfig : KinesisClientLibConfiguration :=
  { ApplicationName := "app"
    TableName := "app"
    StreamName := "stream"
    WorkerID := "worker-1"
    KinesisEndpoint := ""
    InitialPositionInStream := .TRIM_HORIZON
    InitialPositionInStreamExtended := { Position := .TRIM_HORIZON, Timestamp := none }
    FailoverTimeMillis := 10000
    MaxRecords := 10000
    IdleTimeBetweenReadsInMillis := 1000
    CallProcessRecordsEvenForEmptyRecordList := false
    ParentShardPollIntervalMillis := 10000
    ShardSyncIntervalMillis := 60000
    CleanupTerminatedShardsBeforeExpiry := true
    TaskBackoffTimeMillis := 500
    MetricsBufferTimeMillis := 10000
    MetricsMaxQueueSize := 10000
    ValidateSequenceNumberBeforeCheckpointing := true
    RegionName := ""
    ShutdownGraceMillis := 5000
    MaxLeasesForWorker := 2147483647
    MaxLeasesToStealAtOneTime := 1
    InitialLeaseTableReadCapacity := 10
    InitialLeaseTableWriteCapacity := 10
    SkipShardSyncAtWorkerInitializationIfLeasesExist := false
    WorkerThreadPoolSize := 1 }

/-! ## Basic facts about the helpers -/

theorem empty_iff (s : String) : empty s = true ↔ s = "" := by
  simp [empty]

theorem checkIsValueNotEmpty_ok {key value : String} (h : value ≠ "") :
    checkIsValueNotEmpty key value = .ok () := by
  simp [checkIsValueNotEmpty, empty, h]

theorem checkIsValueNotEmpty_error (key : String) :
    checkIsValueNotEmpty key "" = .error (.InvalidArgument key) := by
  simp [checkIsValueNotEmpty, empty]

theorem checkIsValuePositive_ok {key : String} {value : Int} (h : 1 ≤ value) :
    checkIsValuePositive key value = .ok () := by
  have : ¬ value ≤ 0 := by omega
  simp [checkIsValuePositive, this]

theorem checkIsValuePositive_error {key : String} {value : Int} (h : value ≤ 0) :
    checkIsValuePositive key value = .error (.InvalidArgument key) := by
  simp [checkIsValuePositive, h]

theorem sampleConfig_constructed :
    NewKinesisClientLibConfig sampleDefaults "uuid-0" "app" "stream" "worker-1" =
      .ok sampleConfig := by
  rfl

/-- The record the constructor builds once its checks have passed. -/
theorem constructor_ok (d : Defaults) (uuid : String) {applicationName streamName : String}
    (workerID : String) (ha : applicationName ≠ "") (hs : streamName ≠ "") :
    NewKinesisClientLibConfig d uuid applicationName streamName workerID = .ok
      { ApplicationName := applicationName
        TableName := applicationName
        StreamName := streamName
        WorkerID := if workerID = "" then uuid else workerID
        KinesisEndpoint := ""
        InitialPositionInStream := d.DEFAULT_INITIAL_POSITION_IN_STREAM
        InitialPositionInStreamExtended :=
          { Position := d.DEFAULT_INITIAL_POSITION_IN_STREAM, Timestamp := none }
        FailoverTimeMillis := d.DEFAULT_FAILOVER_TIME_MILLIS
        MaxRecords := d.DEFAULT_MAX_RECORDS
        IdleTimeBetweenReadsInMillis := d.DEFAULT_IDLETIME_BETWEEN_READS_MILLIS
        CallProcessRecordsEvenForEmptyRecordList :=
          d.DEFAULT_DONT_CALL_PROCESS_RECORDS_FOR_EMPTY_RECORD_LIST
        ParentShardPollIntervalMillis := d.DEFAULT_PARENT_SHARD_POLL_INTERVAL_MILLIS
        ShardSyncIntervalMillis := d.DEFAULT_SHARD_SYNC_INTERVAL_MILLIS
        CleanupTerminatedShardsBeforeExpiry := d.DEFAULT_CLEANUP_LEASES_UPON_SHARDS_COMPLETION
        TaskBackoffTimeMillis := d.DEFAULT_TASK_BACKOFF_TIME_MILLIS
        MetricsBufferTimeMillis := d.DEFAULT_METRICS_BUFFER_TIME_MILLIS
        MetricsMaxQueueSize := d.DEFAULT_METRICS_MAX_QUEUE_SIZE
        ValidateSequenceNumberBeforeCheckpointing :=
          d.DEFAULT_VALIDATE_SEQUENCE_NUMBER_BEFORE_CHECKPOINTING
        RegionName := ""
        ShutdownGraceMillis := d.DEFAULT_SHUTDOWN_GRACE_MILLIS
        MaxLeasesForWorker := d.DEFAULT_MAX_LEASES_FOR_WORKER
        MaxLeasesToStealAtOneTime := d.DEFAULT_MAX_LEASES_TO_STEAL_AT_ONE_TIME
        InitialLeaseTableReadCapacity := d.DEFAULT_INITIAL_LEASE_TABLE_READ_CAPACITY
        InitialLeaseTableWriteCapacity := d.DEFAULT_INITIAL_LEASE_TABLE_WRITE_CAPACITY
        SkipShardSyncAtWorkerInitializationIfLeasesExist :=
          d.DEFAULT_SKIP_SHARD_SYNC_AT_STARTUP_IF_LEASES_EXIST
        WorkerThreadPoolSize := 1 } := by
  simp [NewKinesisClientLibConfig, checkIsValueNotEmpty_ok ha, checkIsValueNotEmpty_ok hs,
    bind, Except.bind, pure, Except.pure, newInitialPosition, empty]

/-- The constructor returns only when both required names are non-empty. -/
theorem constructor_ok_names {d : Defaults} {uuid applicationName streamName workerID : String}
    {c : KinesisClientLibConfiguration}
    (h : NewKinesisClientLibConfig d uuid applicationName streamName workerID = .ok c) :
    applicationName ≠ "" ∧ streamName ≠ "" := by
  by_cases ha : applicationName = ""
  · subst ha
    simp [NewKinesisClientLibConfig, checkIsValueNotEmpty_error, bind, Except.bind] at h
  · by_cases hs : streamName = ""
    · subst hs
      simp [NewKinesisClientLibConfig, checkIsValueNotEmpty_error,
        checkIsValueNotEmpty_ok ha, bind, Except.bind] at h
    · exact ⟨ha, hs⟩

/-- No override touches the three identity fields, whether it returns or panics. -/
theorem applyOverride_identity (c : KinesisClientLibConfiguration) (o : Override) :
    (applyOverride c o).config.ApplicationName = c.ApplicationName ∧
    (applyOverride c o).config.StreamName = c.StreamName ∧
    (applyOverride c o).config.WorkerID = c.WorkerID := by
  cases o <;>
    simp only [applyOverride, WithTableName, WithKinesisEndpoint, WithInitialPositionInStream,
      WithTimestampAtInitialPositionInStream, WithFailoverTimeMillis,
      WithShardSyncIntervalMillis, WithMaxRecords, WithIdleTimeBetweenReadsInMillis,
      WithCallProcessRecordsEvenForEmptyRecordList, WithTaskBackoffTimeMillis,
      WithMetricsBufferTimeMillis, WithMetricsMaxQueueSize, WithRegionName,
      WithWorkerThreadPoolSize] <;>
    first
      | exact ⟨trivial, trivial, trivial⟩
      | exact ⟨rfl, rfl, rfl⟩
      | (split <;> exact ⟨rfl, rfl, rfl⟩)

/-- An override keeps the initial position coherent. -/
theorem applyOverride_coherent (c : KinesisClientLibConfiguration) (o : Override)
    (h : PositionCoherent c) : PositionCoherent (applyOverride c o).config := by
  cases o <;>
    simp only [applyOverride, WithTableName, WithKinesisEndpoint, WithInitialPositionInStream,
      WithTimestampAtInitialPositionInStream, WithFailoverTimeMillis,
      WithShardSyncIntervalMillis, WithMaxRecords, WithIdleTimeBetweenReadsInMillis,
      WithCallProcessRecordsEvenForEmptyRecordList, WithTaskBackoffTimeMillis,
      WithMetricsBufferTimeMillis, WithMetricsMaxQueueSize, WithRegionName,
      WithWorkerThreadPoolSize] <;>
    first
      | exact h
      | (split <;> exact h)
      | simp [PositionCoherent, newInitialPosition, newInitialPositionAtTimestamp]

/-- An override that returns keeps every numeric field with an override positive. -/
theorem applyOverride_positive (c : KinesisClientLibConfiguration) (o : Override)
    (h : ∀ f : NumericField, 0 < f.get c) (hr : (applyOverride c o).result = .ok ()) :
    ∀ f : NumericField, 0 < f.get (applyOverride c o).config := by
  intro f
  have hf := h f
  cases o with
  | WithTableName s => cases f <;> exact hf
  | WithKinesisEndpoint s => cases f <;> exact hf
  | WithInitialPositionInStream p => cases f <;> exact hf
  | WithTimestampAtInitialPositionInStream t => cases f <;> exact hf
  | WithCallProcessRecordsEvenForEmptyRecordList b => cases f <;> exact hf
  | WithRegionName s =>
    simp only [applyOverride, WithRegionName] at hr ⊢
    split <;> cases f <;> exact hf
  | WithFailoverTimeMillis v =>
    by_cases hv : v ≤ 0
    · simp [applyOverride, WithFailoverTimeMillis, checkIsValuePositive_error hv] at hr
    · have h1 : 1 ≤ v := by omega
      cases f <;>
        simp [applyOverride, WithFailoverTimeMillis, checkIsValuePositive_ok h1,
          NumericField.get] <;>
        first | omega | exact hf
  | WithShardSyncIntervalMillis v =>
    by_cases hv : v ≤ 0
    · simp [applyOverride, WithShardSyncIntervalMillis, checkIsValuePositive_error hv] at hr
    · have h1 : 1 ≤ v := by omega
      cases f <;>
        simp [applyOverride, WithShardSyncIntervalMillis, checkIsValuePositive_ok h1,
          NumericField.get] <;>
        first | omega | exact hf
  | WithMaxRecords v =>
    by_cases hv : v ≤ 0
    · simp [applyOverride, WithMaxRecords, checkIsValuePositive_error hv] at hr
    · have h1 : 1 ≤ v := by omega
      cases f <;>
        simp [applyOverride, WithMaxRecords, checkIsValuePositive_ok h1,
          NumericField.get] <;>
        first | omega | exact hf
  | WithIdleTimeBetweenReadsInMillis v =>
    by_cases hv : v ≤ 0
    · simp [applyOverride, WithIdleTimeBetweenReadsInMillis,
        checkIsValuePositive_error hv] at hr
    · have h1 : 1 ≤ v := by omega
      cases f <;>
        simp [applyOverride, WithIdleTimeBetweenReadsInMillis, checkIsValuePositive_ok h1,
          NumericField.get] <;>
        first | omega | exact hf
  | WithTaskBackoffTimeMillis v =>
    by_cases hv : v ≤ 0
    · simp [applyOverride, WithTaskBackoffTimeMillis, checkIsValuePositive_error hv] at hr
    · have h1 : 1 ≤ v := by omega
      cases f <;>
        simp [applyOverride, WithTaskBackoffTimeMillis, checkIsValuePositive_ok h1,
          NumericField.get] <;>
        first | omega | exact hf
  | WithMetricsBufferTimeMillis v =>
    by_cases hv : v ≤ 0
    · simp [applyOverride, WithMetricsBufferTimeMillis, checkIsValuePositive_error hv] at hr
    · have h1 : 1 ≤ v := by omega
      cases f <;>
        simp [applyOverride, WithMetricsBufferTimeMillis, checkIsValuePositive_ok h1,
          NumericField.get] <;>
        first | omega | exact hf
  | WithMetricsMaxQueueSize v =>
    by_cases hv : v ≤ 0
    · simp [applyOverride, WithMetricsMaxQueueSize, checkIsValuePositive_error hv] at hr
    · have h1 : 1 ≤ v := by omega
      cases f <;>
        simp [applyOverride, WithMetricsMaxQueueSize, checkIsValuePositive_ok h1,
          NumericField.get] <;>
        first | omega | exact hf
  | WithWorkerThreadPoolSize v =>
    by_cases hv : v ≤ 0
    · simp [applyOverride, WithWorkerThreadPoolSize, checkIsValuePositive_error hv] at hr
    · have h1 : 1 ≤ v := by omega
      cases f <;>
        simp [applyOverride, WithWorkerThreadPoolSize, checkIsValuePositive_ok h1,
          NumericField.get] <;>
        first | omega | exact hf


/-- A chain that returns ends in a configuration reachable from its start. -/
theorem chain_reachable {d : Defaults} {uuid applicationName streamName workerID : String}
    (os : List Override) :
    ∀ c : KinesisClientLibConfiguration,
      Reachable d uuid applicationName streamName workerID c →
      (chain c os).result = .ok () →
      Reachable d uuid applicationName streamName workerID (chain c os).config := by
  induction os with
  | nil => intro c hc _; exact hc
  | cons o os ih =>
    intro c hc hr
    have hstep := Reachable.override o hc
    revert hr hstep
    simp only [chain]
    cases hcall : applyOverride c o with
    | mk c1 r =>
      cases r with
      | error e => intro hr; simp at hr
      | ok u =>
        cases u
        intro hr hstep
        exact ih c1 (hstep rfl) hr

/-- Running a chain in two pieces. -/
theorem chain_append (os ps : List Override) :
    ∀ c : KinesisClientLibConfiguration,
      chain c (os ++ ps) =
        match chain c os with
        | ⟨c1, .ok ()⟩ => chain c1 ps
        | ⟨c1, .error e⟩ => ⟨c1, .error e⟩ := by
  induction os with
  | nil => intro c; simp [chain]
  | cons o os ih =>
    intro c
    simp only [List.cons_append, chain]
    cases hcall : applyOverride c o with
    | mk c1 r =>
      cases r with
      | error e => rfl
      | ok u => cases u; exact ih c1

/-- What `build` returning says about the constructor and the chain. -/
theorem build_ok {d : Defaults} {uuid applicationName streamName workerID : String}
    {os : List Override} {c : KinesisClientLibConfiguration}
    (h : build d uuid applicationName streamName workerID os = .ok c) :
    ∃ c0, NewKinesisClientLibConfig d uuid applicationName streamName workerID = .ok c0 ∧
      chain c0 os = ⟨c, .ok ()⟩ := by
  unfold build at h
  cases h0 : NewKinesisClientLibConfig d uuid applicationName streamName workerID with
  | error e => simp [h0] at h
  | ok c0 =>
    simp only [h0] at h
    refine ⟨c0, rfl, ?_⟩
    cases hch : chain c0 os with
    | mk c1 r =>
      rw [hch] at h
      cases r with
      | error e => simp at h
      | ok u =>
        cases u
        simp at h
        subst h
        rfl

/-- Every reachable configuration is the end of a returning chain from the
constructor, and conversely. -/
theorem reachable_iff_build (d : Defaults) (uuid applicationName streamName workerID : String)
    (c : KinesisClientLibConfiguration) :
    Reachable d uuid applicationName streamName workerID c ↔
      ∃ os, build d uuid applicationName streamName workerID os = .ok c := by
  constructor
  · intro h
    induction h with
    | construct h0 => exact ⟨[], by simp [build, h0, chain]⟩
    | @override c1 o _ hr ih =>
      obtain ⟨os, hos⟩ := ih
      obtain ⟨c0, h0, hch⟩ := build_ok hos
      refine ⟨os ++ [o], ?_⟩
      unfold build
      simp only [h0, chain_append, hch, chain]
      revert hr
      cases applyOverride c1 o with
      | mk c2 r =>
        cases r with
        | error e => intro hr; simp at hr
        | ok u => cases u; intro _; rfl
  · rintro ⟨os, hos⟩
    obtain ⟨c0, h0, hch⟩ := build_ok hos
    have hreach := chain_reachable os c0 (Reachable.construct h0)
    rw [hch] at hreach
    exact hreach rfl

/-! ## The constructor -/

/-- Claim C1: the constructor fails with `InvalidArgument` whenever the
application name or the stream name is empty, whatever the worker identity; for
non-empty names it returns a configuration; hence every configuration it
returns has a non-empty `ApplicationName` and `StreamName`. -/
theorem constructor_requires_nonempty_names (d : Defaults)
    (uuid applicationName streamName workerID : String) :
    ((applicationName = "" ∨ streamName = "") →
      ∃ key, NewKinesisClientLibConfig d uuid applicationName streamName workerID =
        .error (.InvalidArgument key)) ∧
    (applicationName ≠ "" → streamName ≠ "" →
      ∃ c, NewKinesisClientLibConfig d uuid applicationName streamName workerID = .ok c) ∧
    (∀ c, NewKinesisClientLibConfig d uuid applicationName streamName workerID = .ok c →
      c.ApplicationName ≠ "" ∧ c.StreamName ≠ "") := by
  refine ⟨?_, ?_, ?_⟩
  · intro h
    by_cases ha : applicationName = ""
    · exact ⟨"ApplicationName", by
        subst ha
        simp [NewKinesisClientLibConfig, checkIsValueNotEmpty_error, bind, Except.bind]⟩
    · have hs : streamName = "" := by tauto
      exact ⟨"StreamName", by
        subst hs
        simp [NewKinesisClientLibConfig, checkIsValueNotEmpty_error,
          checkIsValueNotEmpty_ok ha, bind, Except.bind]⟩
  · intro ha hs
    exact ⟨_, constructor_ok d uuid workerID ha hs⟩
  · intro c hc
    obtain ⟨ha, hs⟩ := constructor_ok_names hc
    rw [constructor_ok d uuid workerID ha hs] at hc
    injection hc with hc
    subst hc
    exact ⟨ha, hs⟩

/-- Claim C1 at concrete inputs: an empty application name and an empty stream
name are refused, `"app"` and `"stream"` are accepted. -/
theorem constructor_requires_nonempty_names_witness :
    (∃ key, NewKinesisClientLibConfig sampleDefaults "uuid-0" "" "stream" "worker-1" =
      .error (.InvalidArgument key)) ∧
    (∃ key, NewKinesisClientLibConfig sampleDefaults "uuid-0" "app" "" "" =
      .error (.InvalidArgument key)) ∧
    (∃ c, NewKinesisClientLibConfig sampleDefaults "uuid-0" "app" "stream" "worker-1" =
      .ok c) ∧
    (sampleConfig.ApplicationName ≠ "" ∧ sampleConfig.StreamName ≠ "") :=
  ⟨(constructor_requires_nonempty_names sampleDefaults "uuid-0" "" "stream" "worker-1").1
      (Or.inl rfl),
   (constructor_requires_nonempty_names sampleDefaults "uuid-0" "app" "" "").1 (Or.inr rfl),
   (constructor_requires_nonempty_names sampleDefaults "uuid-0" "app" "stream"
      "worker-1").2.1 (by decide) (by decide),
   (constructor_requires_nonempty_names sampleDefaults "uuid-0" "app" "stream"
      "worker-1").2.2 sampleConfig sampleConfig_constructed⟩

/-- Claim C2: for non-empty application name, stream name and worker identity
the constructor returns the configuration with the two names, the lease table
named after the application, the worker identity kept verbatim, empty endpoint
and region, thread-pool size 1 and every other field at its `DEFAULT_*`
constant. -/
theorem constructor_populates_defaults (d : Defaults)
    (uuid applicationName streamName workerID : String)
    (ha : applicationName ≠ "") (hs : streamName ≠ "") (hw : workerID ≠ "") :
    NewKinesisClientLibConfig d uuid applicationName streamName workerID = .ok
      { ApplicationName := applicationName
        TableName := applicationName
        StreamName := streamName
        WorkerID := workerID
        KinesisEndpoint := ""
        InitialPositionInStream := d.DEFAULT_INITIAL_POSITION_IN_STREAM
        InitialPositionInStreamExtended :=
          newInitialPosition d.DEFAULT_INITIAL_POSITION_IN_STREAM
        FailoverTimeMillis := d.DEFAULT_FAILOVER_TIME_MILLIS
        MaxRecords := d.DEFAULT_MAX_RECORDS
        IdleTimeBetweenReadsInMillis := d.DEFAULT_IDLETIME_BETWEEN_READS_MILLIS
        CallProcessRecordsEvenForEmptyRecordList :=
          d.DEFAULT_DONT_CALL_PROCESS_RECORDS_FOR_EMPTY_RECORD_LIST
        ParentShardPollIntervalMillis := d.DEFAULT_PARENT_SHARD_POLL_INTERVAL_MILLIS
        ShardSyncIntervalMillis := d.DEFAULT_SHARD_SYNC_INTERVAL_MILLIS
        CleanupTerminatedShardsBeforeExpiry := d.DEFAULT_CLEANUP_LEASES_UPON_SHARDS_COMPLETION
        TaskBackoffTimeMillis := d.DEFAULT_TASK_BACKOFF_TIME_MILLIS
        MetricsBufferTimeMillis := d.DEFAULT_METRICS_BUFFER_TIME_MILLIS
        MetricsMaxQueueSize := d.DEFAULT_METRICS_MAX_QUEUE_SIZE
        ValidateSequenceNumberBeforeCheckpointing :=
          d.DEFAULT_VALIDATE_SEQUENCE_NUMBER_BEFORE_CHECKPOINTING
        RegionName := ""
        ShutdownGraceMillis := d.DEFAULT_SHUTDOWN_GRACE_MILLIS
        MaxLeasesForWorker := d.DEFAULT_MAX_LEASES_FOR_WORKER
        MaxLeasesToStealAtOneTime := d.DEFAULT_MAX_LEASES_TO_STEAL_AT_ONE_TIME
        InitialLeaseTableReadCapacity := d.DEFAULT_INITIAL_LEASE_TABLE_READ_CAPACITY
        InitialLeaseTableWriteCapacity := d.DEFAULT_INITIAL_LEASE_TABLE_WRITE_CAPACITY
        SkipShardSyncAtWorkerInitializationIfLeasesExist :=
          d.DEFAULT_SKIP_SHARD_SYNC_AT_STARTUP_IF_LEASES_EXIST
        WorkerThreadPoolSize := 1 } := by
  rw [constructor_ok d uuid workerID ha hs]
  simp [hw, newInitialPosition]

/-- Claim C2 at `New("app", "stream", "worker-1")`: the result is `sampleConfig`,
whose `ApplicationName` is `"app"`, `StreamName` `"stream"` and `TableName`
`"app"`. -/
theorem constructor_populates_defaults_witness :
    ("app" ≠ "" ∧ "stream" ≠ "" ∧ "worker-1" ≠ "") ∧
    NewKinesisClientLibConfig sampleDefaults "uuid-0" "app" "stream" "worker-1" =
      .ok sampleConfig ∧
    sampleConfig.ApplicationName = "app" ∧ sampleConfig.StreamName = "stream" ∧
    sampleConfig.TableName = "app" :=
  ⟨⟨by decide, by decide, by decide⟩,
   constructor_populates_defaults sampleDefaults "uuid-0" "app" "stream" "worker-1"
     (by decide) (by decide) (by decide),
   rfl, rfl, rfl⟩

/-- Claim C3: for non-empty names and an empty worker identity the constructor
returns a configuration whose `WorkerID` is the generated identity, non-empty
when the generator's value is; with a non-empty worker identity the result does
not depend on the generator's value. -/
theorem constructor_generates_worker_id (d : Defaults) (applicationName streamName : String)
    (ha : applicationName ≠ "") (hs : streamName ≠ "") :
    (∀ uuid : String,
      (NewKinesisClientLibConfig d uuid applicationName streamName "").map
        KinesisClientLibConfiguration.WorkerID = .ok uuid) ∧
    (∀ uuid : String, uuid ≠ "" →
      ∃ c, NewKinesisClientLibConfig d uuid applicationName streamName "" = .ok c ∧
        c.WorkerID = uuid ∧ c.WorkerID ≠ "") ∧
    (∀ workerID : String, workerID ≠ "" → ∀ uuid uuid2 : String,
      NewKinesisClientLibConfig d uuid applicationName streamName workerID =
        NewKinesisClientLibConfig d uuid2 applicationName streamName workerID) := by
  refine ⟨?_, ?_, ?_⟩
  · intro uuid
    rw [constructor_ok d uuid "" ha hs]
    simp [Except.map]
  · intro uuid hu
    exact ⟨_, constructor_ok d uuid "" ha hs, by simp, by simpa using hu⟩
  · intro w hw u1 u2
    rw [constructor_ok d u1 w ha hs, constructor_ok d u2 w ha hs]
    simp [hw]

/-- Claim C3 at `New("app", "stream", "")` with generated identity `"uuid-0"`, and
at `New("app", "stream", "worker-1")` with two different generated
identities. -/
theorem constructor_generates_worker_id_witness :
    ("app" ≠ "" ∧ "stream" ≠ "") ∧
    (NewKinesisClientLibConfig sampleDefaults "uuid-0" "app" "stream" "").map
      KinesisClientLibConfiguration.WorkerID = .ok "uuid-0" ∧
    NewKinesisClientLibConfig sampleDefaults "uuid-0" "app" "stream" "worker-1" =
      NewKinesisClientLibConfig sampleDefaults "uuid-1" "app" "stream" "worker-1" :=
  ⟨⟨by decide, by decide⟩,
   (constructor_generates_worker_id sampleDefaults "app" "stream" (by decide)
      (by decide)).1 "uuid-0",
   (constructor_generates_worker_id sampleDefaults "app" "stream" (by decide)
      (by decide)).2.2 "worker-1" (by decide) "uuid-0" "uuid-1"⟩

/-! ## Validation done by the overrides -/

/-- Claim C4: each positive-numeric override, on any configuration and any
integer `v`: for `v ≥ 1` it returns and the field is `v`; for `v ≤ 0` it fails
with `InvalidArgument` and the configuration is unchanged. -/
theorem numeric_override_validates (c : KinesisClientLibConfiguration) (f : NumericField)
    (v : Int) :
    (1 ≤ v → (f.override c v).result = .ok () ∧ f.get (f.override c v).config = v) ∧
    (v ≤ 0 → (f.override c v).result = .error (.InvalidArgument f.key) ∧
      (f.override c v).config = c) := by
  constructor
  · intro h
    cases f <;>
      simp [NumericField.override, NumericField.get, WithFailoverTimeMillis,
        WithShardSyncIntervalMillis, WithMaxRecords, WithIdleTimeBetweenReadsInMillis,
        WithTaskBackoffTimeMillis, WithMetricsBufferTimeMillis, WithMetricsMaxQueueSize,
        WithWorkerThreadPoolSize, checkIsValuePositive_ok h]
  · intro h
    cases f <;>
      simp [NumericField.override, NumericField.key, WithFailoverTimeMillis,
        WithShardSyncIntervalMillis, WithMaxRecords, WithIdleTimeBetweenReadsInMillis,
        WithTaskBackoffTimeMillis, WithMetricsBufferTimeMillis, WithMetricsMaxQueueSize,
        WithWorkerThreadPoolSize, checkIsValuePositive_error h]

/-- Claim C4 at `WithMaxRecords(500)`, `WithMaxRecords(0)` and
`WithWorkerThreadPoolSize(-3)` on `sampleConfig`. -/
theorem numeric_override_validates_witness :
    ((WithMaxRecords sampleConfig 500).result = .ok () ∧
      (WithMaxRecords sampleConfig 500).config.MaxRecords = 500) ∧
    ((WithMaxRecords sampleConfig 0).result = .error (.InvalidArgument "MaxRecords") ∧
      (WithMaxRecords sampleConfig 0).config = sampleConfig) ∧
    ((WithWorkerThreadPoolSize sampleConfig (-3)).result =
        .error (.InvalidArgument "WorkerThreadPoolSize") ∧
      (WithWorkerThreadPoolSize sampleConfig (-3)).config = sampleConfig) :=
  ⟨(numeric_override_validates sampleConfig .MaxRecords 500).1 (by decide),
   (numeric_override_validates sampleConfig .MaxRecords 0).2 (by decide),
   (numeric_override_validates sampleConfig .WorkerThreadPoolSize (-3)).2 (by decide)⟩

/-- Claim C5, as stated, fails: on `sampleConfig`, `WithTableName("")` returns and
changes `TableName` from `"app"` to `""`, and `WithKinesisEndpoint("")` returns
too. -/
theorem string_override_empty_counterexample :
    (WithTableName sampleConfig "").result = .ok () ∧
    sampleConfig.TableName = "app" ∧
    (WithTableName sampleConfig "").config.TableName = "" ∧
    (WithKinesisEndpoint sampleConfig "").result = .ok () ∧
    (WithKinesisEndpoint sampleConfig "").config.KinesisEndpoint = "" := by
  refine ⟨rfl, rfl, rfl, rfl, rfl⟩

/-- Claim C5, amended: `WithTableName` and `WithKinesisEndpoint` validate nothing,
they return and store any string, the empty one included; `WithRegionName("")`
fails with `InvalidArgument` and leaves the configuration unchanged. -/
theorem string_override_validation (c : KinesisClientLibConfiguration) (s : String) :
    ((WithTableName c s).result = .ok () ∧ (WithTableName c s).config.TableName = s) ∧
    ((WithKinesisEndpoint c s).result = .ok () ∧
      (WithKinesisEndpoint c s).config.KinesisEndpoint = s) ∧
    ((WithRegionName c "").result = .error (.InvalidArgument "RegionName") ∧
      (WithRegionName c "").config = c) := by
  simp [WithTableName, WithKinesisEndpoint, WithRegionName, checkIsValueNotEmpty_error]

/-- Claim C6: `WithRegionName(r)` returns with `RegionName = r` when `r` is
non-empty, and fails with `InvalidArgument` leaving `RegionName` unchanged when
`r` is empty. -/
theorem region_override_validates (c : KinesisClientLibConfiguration) (r : String) :
    (r ≠ "" →
      (WithRegionName c r).result = .ok () ∧ (WithRegionName c r).config.RegionName = r) ∧
    (r = "" →
      (WithRegionName c r).result = .error (.InvalidArgument "RegionName") ∧
      (WithRegionName c r).config.RegionName = c.RegionName) := by
  constructor
  · intro h
    simp [WithRegionName, checkIsValueNotEmpty_ok h]
  · intro h
    subst h
    simp [WithRegionName, checkIsValueNotEmpty_error]

/-- Claim C6 at `WithRegionName("us-west-2")` and `WithRegionName("")` on
`sampleConfig`. -/
theorem region_override_validates_witness :
    ((WithRegionName sampleConfig "us-west-2").result = .ok () ∧
      (WithRegionName sampleConfig "us-west-2").config.RegionName = "us-west-2") ∧
    ((WithRegionName sampleConfig "").result = .error (.InvalidArgument "RegionName") ∧
      (WithRegionName sampleConfig "").config.RegionName = sampleConfig.RegionName) :=
  ⟨(region_override_validates sampleConfig "us-west-2").1 (by decide),
   (region_override_validates sampleConfig "").2 rfl⟩

/-! ## Invariants of reachable configurations -/

/-- Claim C7, as stated, fails: after `WithTimestampAtInitialPositionInStream(nil)`,
and after `WithInitialPositionInStream(AT_TIMESTAMP)`, the mode is
at-explicit-timestamp and the extended form has no timestamp. -/
theorem position_consistent_counterexample :
    (Reachable sampleDefaults "uuid-0" "app" "stream" "worker-1"
        (WithTimestampAtInitialPositionInStream sampleConfig none).config ∧
      (WithTimestampAtInitialPositionInStream sampleConfig none).config.InitialPositionInStream
        = .AT_TIMESTAMP ∧
      (WithTimestampAtInitialPositionInStream sampleConfig
        none).config.InitialPositionInStreamExtended.Timestamp = none ∧
      ¬ PositionConsistent (WithTimestampAtInitialPositionInStream sampleConfig none).config) ∧
    (Reachable sampleDefaults "uuid-0" "app" "stream" "worker-1"
        (WithInitialPositionInStream sampleConfig .AT_TIMESTAMP).config ∧
      ¬ PositionConsistent (WithInitialPositionInStream sampleConfig .AT_TIMESTAMP).config) :=
  ⟨⟨Reachable.override (.WithTimestampAtInitialPositionInStream none)
      (Reachable.construct sampleConfig_constructed) rfl, rfl, rfl, by decide⟩,
   ⟨Reachable.override (.WithInitialPositionInStream .AT_TIMESTAMP)
      (Reachable.construct sampleConfig_constructed) rfl, by decide⟩⟩

/-- Claim C7, amended: in every reachable configuration the extended form has the
mode of `InitialPositionInStream`, and if it has a timestamp the mode is
at-explicit-timestamp. -/
theorem reachable_position_coherent (d : Defaults)
    (uuid applicationName streamName workerID : String) (c : KinesisClientLibConfiguration)
    (h : Reachable d uuid applicationName streamName workerID c) : PositionCoherent c := by
  induction h with
  | construct h0 =>
    obtain ⟨ha, hs⟩ := constructor_ok_names h0
    rw [constructor_ok d uuid workerID ha hs] at h0
    injection h0 with h0
    subst h0
    simp [PositionCoherent]
  | override o _ _ ih => exact applyOverride_coherent _ o ih

/-- Claim C7, amended, at the configuration reached by
`New("app", "stream", "worker-1").WithTimestampAtInitialPositionInStream(nil)`. -/
theorem reachable_position_coherent_witness :
    Reachable sampleDefaults "uuid-0" "app" "stream" "worker-1"
      (WithTimestampAtInitialPositionInStream sampleConfig none).config ∧
    PositionCoherent (WithTimestampAtInitialPositionInStream sampleConfig none).config :=
  ⟨Reachable.override (.WithTimestampAtInitialPositionInStream none)
      (Reachable.construct sampleConfig_constructed) rfl,
   reachable_position_coherent sampleDefaults "uuid-0" "app" "stream" "worker-1" _
     (Reachable.override (.WithTimestampAtInitialPositionInStream none)
       (Reachable.construct sampleConfig_constructed) rfl)⟩

/-- Claim C8: when the `DEFAULT_*` constants of the numeric fields are positive,
every numeric field with an override method is strictly positive in every
reachable configuration. -/
theorem reachable_numeric_fields_positive (d : Defaults) (hd : d.Positive)
    (uuid applicationName streamName workerID : String) (c : KinesisClientLibConfiguration)
    (h : Reachable d uuid applicationName streamName workerID c) :
    ∀ f : NumericField, 0 < f.get c := by
  induction h with
  | construct h0 =>
    obtain ⟨ha, hs⟩ := constructor_ok_names h0
    rw [constructor_ok d uuid workerID ha hs] at h0
    injection h0 with h0
    subst h0
    obtain ⟨h1, h2, h3, h4, h5, h6, h7⟩ := hd
    intro f
    cases f <;> simp [NumericField.get] <;> assumption
  | override o _ hr ih => exact applyOverride_positive _ o ih hr

/-- Claim C8 at the configuration reached by
`New("app", "stream", "worker-1").WithMaxRecords(500)`, for the fields
`MaxRecords` and `WorkerThreadPoolSize`. -/
theorem reachable_numeric_fields_positive_witness :
    sampleDefaults.Positive ∧
    Reachable sampleDefaults "uuid-0" "app" "stream" "worker-1"
      (WithMaxRecords sampleConfig 500).config ∧
    0 < (WithMaxRecords sampleConfig 500).config.MaxRecords ∧
    0 < (WithMaxRecords sampleConfig 500).config.WorkerThreadPoolSize :=
  ⟨by decide,
   Reachable.override (.WithMaxRecords 500) (Reachable.construct sampleConfig_constructed) rfl,
   reachable_numeric_fields_positive sampleDefaults (by decide) "uuid-0" "app" "stream"
     "worker-1" _
     (Reachable.override (.WithMaxRecords 500) (Reachable.construct sampleConfig_constructed)
       rfl) .MaxRecords,
   reachable_numeric_fields_positive sampleDefaults (by decide) "uuid-0" "app" "stream"
     "worker-1" _
     (Reachable.override (.WithMaxRecords 500) (Reachable.construct sampleConfig_constructed)
       rfl) .WorkerThreadPoolSize⟩

/-- Claim C9: in every reachable configuration `ApplicationName`, `StreamName` and
`WorkerID` are the values fixed at construction (the worker identity given, or
the generated one when none was given) and are non-empty, the generated
identity being non-empty. -/
theorem reachable_identity_fixed (d : Defaults)
    (uuid applicationName streamName workerID : String) (c : KinesisClientLibConfiguration)
    (hu : workerID = "" → uuid ≠ "")
    (h : Reachable d uuid applicationName streamName workerID c) :
    (c.ApplicationName = applicationName ∧ c.StreamName = streamName ∧
      c.WorkerID = if workerID = "" then uuid else workerID) ∧
    (c.ApplicationName ≠ "" ∧ c.StreamName ≠ "" ∧ c.WorkerID ≠ "") := by
  induction h with
  | construct h0 =>
    obtain ⟨ha, hs⟩ := constructor_ok_names h0
    rw [constructor_ok d uuid workerID ha hs] at h0
    injection h0 with h0
    subst h0
    refine ⟨⟨rfl, rfl, rfl⟩, ha, hs, ?_⟩
    by_cases hw : workerID = ""
    · simpa [hw] using hu hw
    · simp [hw]
  | override o _ _ ih =>
    obtain ⟨h1, h2, h3⟩ := applyOverride_identity _ o
    rw [h1, h2, h3]
    exact ih

/-- Claim C9 at the configuration reached by
`New("app", "stream", "worker-1").WithTableName("leases")`. -/
theorem reachable_identity_fixed_witness :
    ("worker-1" = "" → "uuid-0" ≠ "") ∧
    Reachable sampleDefaults "uuid-0" "app" "stream" "worker-1"
      (WithTableName sampleConfig "leases").config ∧
    (((WithTableName sampleConfig "leases").config.ApplicationName = "app" ∧
      (WithTableName sampleConfig "leases").config.StreamName = "stream" ∧
      (WithTableName sampleConfig "leases").config.WorkerID =
        if "worker-1" = "" then "uuid-0" else "worker-1") ∧
     ((WithTableName sampleConfig "leases").config.ApplicationName ≠ "" ∧
      (WithTableName sampleConfig "leases").config.StreamName ≠ "" ∧
      (WithTableName sampleConfig "leases").config.WorkerID ≠ "")) :=
  ⟨by decide,
   Reachable.override (.WithTableName "leases") (Reachable.construct sampleConfig_constructed)
     rfl,
   reachable_identity_fixed sampleDefaults "uuid-0" "app" "stream" "worker-1" _ (by decide)
     (Reachable.override (.WithTableName "leases")
       (Reachable.construct sampleConfig_constructed) rfl)⟩

/-! ## Initial position -/

/-- Claim C10: on any configuration, whatever initial-position overrides came
before, `WithInitialPositionInStream(m)` returns with `InitialPositionInStream`
equal to `m` and an extended form of mode `m` without timestamp. -/
theorem initial_position_last_call_wins (c : KinesisClientLibConfiguration)
    (m : InitialPositionInStream) :
    (WithInitialPositionInStream c m).result = .ok () ∧
    (WithInitialPositionInStream c m).config.InitialPositionInStream = m ∧
    (WithInitialPositionInStream c m).config.InitialPositionInStreamExtended.Position = m ∧
    (WithInitialPositionInStream c m).config.InitialPositionInStreamExtended.Timestamp =
      none := by
  simp [WithInitialPositionInStream, newInitialPosition]

/-- Claim C10 on two chains from `sampleConfig`: latest then earliest-available,
and a timestamp then earliest-available, both end in mode earliest-available
without timestamp. -/
theorem initial_position_last_call_wins_witness :
    ((chain sampleConfig [.WithInitialPositionInStream .LATEST,
        .WithInitialPositionInStream .TRIM_HORIZON]).result = .ok () ∧
      (chain sampleConfig [.WithInitialPositionInStream .LATEST,
        .WithInitialPositionInStream .TRIM_HORIZON]).config.InitialPositionInStream =
        .TRIM_HORIZON ∧
      (chain sampleConfig [.WithInitialPositionInStream .LATEST,
        .WithInitialPositionInStream .TRIM_HORIZON]).config.InitialPositionInStreamExtended =
        { Position := .TRIM_HORIZON, Timestamp := none }) ∧
    ((WithInitialPositionInStream
        (WithTimestampAtInitialPositionInStream sampleConfig (some 1700000000)).config
        .TRIM_HORIZON).result = .ok () ∧
      (WithInitialPositionInStream
        (WithTimestampAtInitialPositionInStream sampleConfig (some 1700000000)).config
        .TRIM_HORIZON).config.InitialPositionInStream = .TRIM_HORIZON ∧
      (WithInitialPositionInStream
        (WithTimestampAtInitialPositionInStream sampleConfig (some 1700000000)).config
        .TRIM_HORIZON).config.InitialPositionInStreamExtended.Position = .TRIM_HORIZON ∧
      (WithInitialPositionInStream
        (WithTimestampAtInitialPositionInStream sampleConfig (some 1700000000)).config
        .TRIM_HORIZON).config.InitialPositionInStreamExtended.Timestamp = none) :=
  ⟨⟨rfl, rfl, rfl⟩,
   initial_position_last_call_wins
     (WithTimestampAtInitialPositionInStream sampleConfig (some 1700000000)).config
     .TRIM_HORIZON⟩

/-! ## Pairs of overrides -/

/-- Whether an override returns does not depend on the receiver. -/
theorem applyOverride_result (c c2 : KinesisClientLibConfiguration) (o : Override) :
    (applyOverride c o).result = (applyOverride c2 o).result := by
  cases o <;>
    simp only [applyOverride, WithTableName, WithKinesisEndpoint, WithInitialPositionInStream,
      WithTimestampAtInitialPositionInStream, WithFailoverTimeMillis,
      WithShardSyncIntervalMillis, WithMaxRecords, WithIdleTimeBetweenReadsInMillis,
      WithCallProcessRecordsEvenForEmptyRecordList, WithTaskBackoffTimeMillis,
      WithMetricsBufferTimeMillis, WithMetricsMaxQueueSize, WithRegionName,
      WithWorkerThreadPoolSize] <;>
    first
      | rfl
      | (split <;> simp_all)

/-- A chain of two overrides that both return. -/
theorem chain_pair_ok (c : KinesisClientLibConfiguration) (o1 o2 : Override)
    (h1 : (applyOverride c o1).result = .ok ()) (h2 : (applyOverride c o2).result = .ok ()) :
    chain c [o1, o2] = ⟨(applyOverride (applyOverride c o1).config o2).config, .ok ()⟩ := by
  have h3 := applyOverride_result (applyOverride c o1).config c o2
  rw [h2] at h3
  revert h1 h3
  simp only [chain]
  cases applyOverride c o1 with
  | mk c1 r1 =>
    intro h1
    simp only at h1
    subst h1
    simp only
    cases applyOverride c1 o2 with
    | mk c2 r2 =>
      intro h3
      simp only at h3
      subst h3
      rfl

/-- A chain of two overrides fails when one of them does. -/
theorem chain_pair_error (c : KinesisClientLibConfiguration) (o1 o2 : Override)
    (h : (applyOverride c o1).result ≠ .ok () ∨ (applyOverride c o2).result ≠ .ok ()) :
    ∃ e, (chain c [o1, o2]).result = .error e := by
  have h3 := applyOverride_result (applyOverride c o1).config c o2
  revert h h3
  simp only [chain]
  cases applyOverride c o1 with
  | mk c1 r1 =>
    cases r1 with
    | error e => intro _ _; exact ⟨e, rfl⟩
    | ok u =>
      cases u
      simp only
      cases applyOverride c1 o2 with
      | mk c2 r2 =>
        cases r2 with
        | error e => intro _ _; exact ⟨e, rfl⟩
        | ok u =>
          cases u
          intro h h3
          simp only at h3
          rw [← h3] at h
          simp at h

/-- The checked overrides, with the outcome of the check made explicit. -/
theorem applyOverride_checked (c : KinesisClientLibConfiguration) :
    (∀ v, WithFailoverTimeMillis c v =
      if v ≤ 0 then ⟨c, .error (.InvalidArgument "FailoverTimeMillis")⟩
      else ⟨{ c with FailoverTimeMillis := v }, .ok ()⟩) ∧
    (∀ v, WithShardSyncIntervalMillis c v =
      if v ≤ 0 then ⟨c, .error (.InvalidArgument "ShardSyncIntervalMillis")⟩
      else ⟨{ c with ShardSyncIntervalMillis := v }, .ok ()⟩) ∧
    (∀ v, WithMaxRecords c v =
      if v ≤ 0 then ⟨c, .error (.InvalidArgument "MaxRecords")⟩
      else ⟨{ c with MaxRecords := v }, .ok ()⟩) ∧
    (∀ v, WithIdleTimeBetweenReadsInMillis c v =
      if v ≤ 0 then ⟨c, .error (.InvalidArgument "IdleTimeBetweenReadsInMillis")⟩
      else ⟨{ c with IdleTimeBetweenReadsInMillis := v }, .ok ()⟩) ∧
    (∀ v, WithTaskBackoffTimeMillis c v =
      if v ≤ 0 then ⟨c, .error (.InvalidArgument "TaskBackoffTimeMillis")⟩
      else ⟨{ c with TaskBackoffTimeMillis := v }, .ok ()⟩) ∧
    (∀ v, WithMetricsBufferTimeMillis c v =
      if v ≤ 0 then ⟨c, .error (.InvalidArgument "MetricsBufferTimeMillis")⟩
      else ⟨{ c with MetricsBufferTimeMillis := v }, .ok ()⟩) ∧
    (∀ v, WithMetricsMaxQueueSize c v =
      if v ≤ 0 then ⟨c, .error (.InvalidArgument "MetricsMaxQueueSize")⟩
      else ⟨{ c with MetricsMaxQueueSize := v }, .ok ()⟩) ∧
    (∀ v, WithWorkerThreadPoolSize c v =
      if v ≤ 0 then ⟨c, .error (.InvalidArgument "WorkerThreadPoolSize")⟩
      else ⟨{ c with WorkerThreadPoolSize := v }, .ok ()⟩) ∧
    (∀ s, WithRegionName c s =
      if s = "" then ⟨c, .error (.InvalidArgument "RegionName")⟩
      else ⟨{ c with RegionName := s }, .ok ()⟩) := by
  refine ⟨?_, ?_, ?_, ?_, ?_, ?_, ?_, ?_, ?_⟩ <;> intro v
  all_goals
    simp only [WithFailoverTimeMillis, WithShardSyncIntervalMillis, WithMaxRecords,
      WithIdleTimeBetweenReadsInMillis, WithTaskBackoffTimeMillis, WithMetricsBufferTimeMillis,
      WithMetricsMaxQueueSize, WithWorkerThreadPoolSize, WithRegionName, checkIsValuePositive,
      checkIsValueNotEmpty, empty, beq_iff_eq]
    split_ifs <;> rfl

/-- The receiver after an override, by cases on the override. -/
theorem applyOverride_cases (c : KinesisClientLibConfiguration) (o : Override) :
    applyOverride c o =
      match o with
      | .WithTableName s => ⟨{ c with TableName := s }, .ok ()⟩
      | .WithKinesisEndpoint s => ⟨{ c with KinesisEndpoint := s }, .ok ()⟩
      | .WithInitialPositionInStream p =>
        ⟨{ c with InitialPositionInStream := p
                  InitialPositionInStreamExtended := { Position := p, Timestamp := none } },
          .ok ()⟩
      | .WithTimestampAtInitialPositionInStream t =>
        ⟨{ c with InitialPositionInStream := .AT_TIMESTAMP
                  InitialPositionInStreamExtended :=
                    { Position := .AT_TIMESTAMP, Timestamp := t } },
          .ok ()⟩
      | .WithFailoverTimeMillis v =>
        if v ≤ 0 then ⟨c, .error (.InvalidArgument "FailoverTimeMillis")⟩
        else ⟨{ c with FailoverTimeMillis := v }, .ok ()⟩
      | .WithShardSyncIntervalMillis v =>
        if v ≤ 0 then ⟨c, .error (.InvalidArgument "ShardSyncIntervalMillis")⟩
        else ⟨{ c with ShardSyncIntervalMillis := v }, .ok ()⟩
      | .WithMaxRecords v =>
        if v ≤ 0 then ⟨c, .error (.InvalidArgument "MaxRecords")⟩
        else ⟨{ c with MaxRecords := v }, .ok ()⟩
      | .WithIdleTimeBetweenReadsInMillis v =>
        if v ≤ 0 then ⟨c, .error (.InvalidArgument "IdleTimeBetweenReadsInMillis")⟩
        else ⟨{ c with IdleTimeBetweenReadsInMillis := v }, .ok ()⟩
      | .WithCallProcessRecordsEvenForEmptyRecordList b =>
        ⟨{ c with CallProcessRecordsEvenForEmptyRecordList := b }, .ok ()⟩
      | .WithTaskBackoffTimeMillis v =>
        if v ≤ 0 then ⟨c, .error (.InvalidArgument "TaskBackoffTimeMillis")⟩
        else ⟨{ c with TaskBackoffTimeMillis := v }, .ok ()⟩
      | .WithMetricsBufferTimeMillis v =>
        if v ≤ 0 then ⟨c, .error (.InvalidArgument "MetricsBufferTimeMillis")⟩
        else ⟨{ c with MetricsBufferTimeMillis := v }, .ok ()⟩
      | .WithMetricsMaxQueueSize v =>
        if v ≤ 0 then ⟨c, .error (.InvalidArgument "MetricsMaxQueueSize")⟩
        else ⟨{ c with MetricsMaxQueueSize := v }, .ok ()⟩
      | .WithRegionName s =>
        if s = "" then ⟨c, .error (.InvalidArgument "RegionName")⟩
        else ⟨{ c with RegionName := s }, .ok ()⟩
      | .WithWorkerThreadPoolSize v =>
        if v ≤ 0 then ⟨c, .error (.InvalidArgument "WorkerThreadPoolSize")⟩
        else ⟨{ c with WorkerThreadPoolSize := v }, .ok ()⟩ := by
  obtain ⟨h1, h2, h3, h4, h5, h6, h7, h8, h9⟩ := applyOverride_checked c
  cases o <;> simp only [applyOverride]
  case WithTableName => rfl
  case WithKinesisEndpoint => rfl
  case WithInitialPositionInStream => rfl
  case WithTimestampAtInitialPositionInStream => rfl
  case WithCallProcessRecordsEvenForEmptyRecordList => rfl
  case WithFailoverTimeMillis v => exact h1 v
  case WithShardSyncIntervalMillis v => exact h2 v
  case WithMaxRecords v => exact h3 v
  case WithIdleTimeBetweenReadsInMillis v => exact h4 v
  case WithTaskBackoffTimeMillis v => exact h5 v
  case WithMetricsBufferTimeMillis v => exact h6 v
  case WithMetricsMaxQueueSize v => exact h7 v
  case WithWorkerThreadPoolSize v => exact h8 v
  case WithRegionName s => exact h9 s

/-- Configurations that agree on every field are equal. -/
theorem eq_of_agree {c1 c2 : KinesisClientLibConfiguration}
    (h : ∀ f : Field, f.agree c1 c2) : c1 = c2 := by
  cases c1
  cases c2
  simp only [KinesisClientLibConfiguration.mk.injEq]
  exact ⟨h .ApplicationName, h .TableName, h .StreamName, h .WorkerID, h .KinesisEndpoint,
    h .InitialPositionInStream, h .InitialPositionInStreamExtended, h .FailoverTimeMillis,
    h .MaxRecords, h .IdleTimeBetweenReadsInMillis,
    h .CallProcessRecordsEvenForEmptyRecordList, h .ParentShardPollIntervalMillis,
    h .ShardSyncIntervalMillis, h .CleanupTerminatedShardsBeforeExpiry,
    h .TaskBackoffTimeMillis, h .MetricsBufferTimeMillis, h .MetricsMaxQueueSize,
    h .ValidateSequenceNumberBeforeCheckpointing, h .RegionName, h .ShutdownGraceMillis,
    h .MaxLeasesForWorker, h .MaxLeasesToStealAtOneTime, h .InitialLeaseTableReadCapacity,
    h .InitialLeaseTableWriteCapacity, h .SkipShardSyncAtWorkerInitializationIfLeasesExist,
    h .WorkerThreadPoolSize⟩

theorem agree_symm {c1 c2 : KinesisClientLibConfiguration} {f : Field}
    (h : f.agree c1 c2) : f.agree c2 c1 := by
  cases f <;> exact Eq.symm h

theorem agree_trans {c1 c2 c3 : KinesisClientLibConfiguration} {f : Field}
    (h : f.agree c1 c2) (h2 : f.agree c2 c3) : f.agree c1 c3 := by
  cases f <;> exact Eq.trans h h2

/-- The frame of an override: a field it does not assign keeps its value, whether
the call returns or panics. -/
theorem applyOverride_frame (c : KinesisClientLibConfiguration) (o : Override) (f : Field)
    (hf : f ∉ o.assigns) : f.agree c (applyOverride c o).config := by
  rw [applyOverride_cases c o]
  cases o <;> simp only <;> (try split_ifs) <;>
    cases f <;> first | exact rfl | simp [Override.assigns] at hf

/-- The value a returning override leaves in a field it assigns depends on the
override only. -/
theorem applyOverride_assigned (c c2 : KinesisClientLibConfiguration) (o : Override)
    (f : Field) (hf : f ∈ o.assigns) (h : (applyOverride c o).result = .ok ()) :
    f.agree (applyOverride c o).config (applyOverride c2 o).config := by
  rw [applyOverride_cases c o] at h ⊢
  rw [applyOverride_cases c2 o]
  cases o <;> simp only at h ⊢ <;> (try split_ifs at h ⊢) <;>
    first
      | (simp at h; done)
      | (cases f <;> first | exact rfl | simp [Override.assigns] at hf)

/-- A chain of one override that returns. -/
theorem chain_single_ok (c : KinesisClientLibConfiguration) (o : Override)
    (h : (applyOverride c o).result = .ok ()) :
    chain c [o] = ⟨(applyOverride c o).config, .ok ()⟩ := by
  revert h
  simp only [chain]
  cases applyOverride c o with
  | mk c1 r =>
    intro h
    simp only at h
    subst h
    rfl

/-- Two returning overrides of disjoint fields leave the same configuration in
either order. -/
theorem applyOverride_commute (c : KinesisClientLibConfiguration) (o1 o2 : Override)
    (hd : List.Disjoint o1.assigns o2.assigns)
    (h1 : (applyOverride c o1).result = .ok ()) (h2 : (applyOverride c o2).result = .ok ()) :
    (applyOverride (applyOverride c o1).config o2).config =
      (applyOverride (applyOverride c o2).config o1).config := by
  apply eq_of_agree
  intro f
  have r1 : (applyOverride (applyOverride c o2).config o1).result = .ok () := by
    rw [applyOverride_result _ c o1]; exact h1
  have r2 : (applyOverride (applyOverride c o1).config o2).result = .ok () := by
    rw [applyOverride_result _ c o2]; exact h2
  by_cases hf1 : f ∈ o1.assigns
  · have hf2 : f ∉ o2.assigns := hd hf1
    exact agree_trans (agree_symm (applyOverride_frame _ o2 f hf2))
      (agree_symm (applyOverride_assigned _ c o1 f hf1 r1))
  · by_cases hf2 : f ∈ o2.assigns
    · exact agree_trans (applyOverride_assigned _ c o2 f hf2 r2)
        (applyOverride_frame _ o1 f hf1)
    · exact agree_trans
        (agree_trans (agree_symm (applyOverride_frame _ o2 f hf2))
          (agree_symm (applyOverride_frame c o1 f hf1)))
        (agree_trans (applyOverride_frame c o2 f hf2) (applyOverride_frame _ o1 f hf1))

/-- Of two returning overrides of the same fields, the second alone decides the
configuration. -/
theorem applyOverride_overwrite (c : KinesisClientLibConfiguration) (o1 o2 : Override)
    (hs : o1.assigns = o2.assigns)
    (h2 : (applyOverride c o2).result = .ok ()) :
    (applyOverride (applyOverride c o1).config o2).config = (applyOverride c o2).config := by
  apply eq_of_agree
  intro f
  have r2 : (applyOverride (applyOverride c o1).config o2).result = .ok () := by
    rw [applyOverride_result _ c o2]; exact h2
  by_cases hf2 : f ∈ o2.assigns
  · exact applyOverride_assigned _ c o2 f hf2 r2
  · have hf1 : f ∉ o1.assigns := by rw [hs]; exact hf2
    exact agree_trans
      (agree_trans (agree_symm (applyOverride_frame _ o2 f hf2))
        (agree_symm (applyOverride_frame c o1 f hf1)))
      (applyOverride_frame c o2 f hf2)

/-! ## Effect of a single override -/

/-- Claim C11: on any configuration and for any timestamp argument, `nil`
included, `WithTimestampAtInitialPositionInStream` returns, sets
`InitialPositionInStream` to at-explicit-timestamp and the extended form to that
mode carrying exactly the given timestamp. -/
theorem timestamp_override_sets_position (c : KinesisClientLibConfiguration)
    (t : Option Time) :
    (WithTimestampAtInitialPositionInStream c t).result = .ok () ∧
    (WithTimestampAtInitialPositionInStream c t).config.InitialPositionInStream =
      .AT_TIMESTAMP ∧
    (WithTimestampAtInitialPositionInStream c t).config.InitialPositionInStreamExtended =
      { Position := .AT_TIMESTAMP, Timestamp := t } := by
  simp [WithTimestampAtInitialPositionInStream, newInitialPositionAtTimestamp]

/-- Claim C12: an override that returns leaves every field it does not assign
unchanged; and `New(app, stream, w).WithMaxRecords(500).WithFailoverTimeMillis(10000)`
is the freshly constructed configuration with `MaxRecords` 500 and
`FailoverTimeMillis` 10000, every other field as constructed. -/
theorem override_changes_only_its_fields :
    (∀ (c : KinesisClientLibConfiguration) (o : Override) (f : Field),
      (applyOverride c o).result = .ok () → f ∉ o.assigns →
      f.agree c (applyOverride c o).config) ∧
    (∀ (d : Defaults) (uuid applicationName streamName workerID : String)
      (c0 : KinesisClientLibConfiguration),
      NewKinesisClientLibConfig d uuid applicationName streamName workerID = .ok c0 →
      build d uuid applicationName streamName workerID
          [.WithMaxRecords 500, .WithFailoverTimeMillis 10000] =
        .ok { c0 with MaxRecords := 500, FailoverTimeMillis := 10000 }) := by
  constructor
  · intro c o f _ hf
    exact applyOverride_frame c o f hf
  · intro d uuid a s w c0 h0
    simp [build, h0, chain, applyOverride, WithMaxRecords, WithFailoverTimeMillis,
      checkIsValuePositive]

/-- Claim C12 on `sampleConfig`: `WithMaxRecords(500)` keeps `TableName`, and the
chain `WithMaxRecords(500).WithFailoverTimeMillis(10000)` from the constructor
changes those two fields only. -/
theorem override_changes_only_its_fields_witness :
    (Field.TableName ∉ (Override.WithMaxRecords 500).assigns ∧
      (WithMaxRecords sampleConfig 500).config.TableName = sampleConfig.TableName) ∧
    build sampleDefaults "uuid-0" "app" "stream" "worker-1"
        [.WithMaxRecords 500, .WithFailoverTimeMillis 10000] =
      .ok { sampleConfig with MaxRecords := 500, FailoverTimeMillis := 10000 } :=
  ⟨⟨by decide,
    override_changes_only_its_fields.1 sampleConfig (.WithMaxRecords 500) .TableName rfl
      (by decide)⟩,
   override_changes_only_its_fields.2 sampleDefaults "uuid-0" "app" "stream" "worker-1"
     sampleConfig sampleConfig_constructed⟩

/-- Claim C13: with the default initial position the specification documents
(earliest-available), the constructor returns, for non-empty names, a
configuration whose `InitialPositionInStream` is earliest-available and whose
extended form has that mode and no timestamp. -/
theorem constructor_initial_position_default (d : Defaults)
    (uuid applicationName streamName workerID : String)
    (ha : applicationName ≠ "") (hs : streamName ≠ "")
    (hd : d.DEFAULT_INITIAL_POSITION_IN_STREAM = DEFAULT_INITIAL_POSITION_IN_STREAM) :
    ∃ c, NewKinesisClientLibConfig d uuid applicationName streamName workerID = .ok c ∧
      c.InitialPositionInStream = .TRIM_HORIZON ∧
      c.InitialPositionInStreamExtended = { Position := .TRIM_HORIZON, Timestamp := none } := by
  refine ⟨_, constructor_ok d uuid workerID ha hs, ?_, ?_⟩
  · simp [hd, DEFAULT_INITIAL_POSITION_IN_STREAM]
  · simp [hd, DEFAULT_INITIAL_POSITION_IN_STREAM]

/-- Claim C13 at `New("app", "stream", "")` under `sampleDefaults`. -/
theorem constructor_initial_position_default_witness :
    ("app" ≠ "" ∧ "stream" ≠ "" ∧
      sampleDefaults.DEFAULT_INITIAL_POSITION_IN_STREAM = DEFAULT_INITIAL_POSITION_IN_STREAM) ∧
    ∃ c, NewKinesisClientLibConfig sampleDefaults "uuid-0" "app" "stream" "" = .ok c ∧
      c.InitialPositionInStream = .TRIM_HORIZON ∧
      c.InitialPositionInStreamExtended = { Position := .TRIM_HORIZON, Timestamp := none } :=
  ⟨⟨by decide, by decide, rfl⟩,
   constructor_initial_position_default sampleDefaults "uuid-0" "app" "stream" ""
     (by decide) (by decide) rfl⟩

/-- Claim C14: `WithCallProcessRecordsEvenForEmptyRecordList(b)` returns for
either boolean and stores it; `WithInitialPositionInStream(m)` returns for
every mode. -/
theorem unvalidated_overrides_never_fail (c : KinesisClientLibConfiguration) (b : Bool)
    (m : InitialPositionInStream) :
    ((WithCallProcessRecordsEvenForEmptyRecordList c b).result = .ok () ∧
      (WithCallProcessRecordsEvenForEmptyRecordList c
        b).config.CallProcessRecordsEvenForEmptyRecordList = b) ∧
    (WithInitialPositionInStream c m).result = .ok () := by
  simp [WithCallProcessRecordsEvenForEmptyRecordList, WithInitialPositionInStream]

/-! ## Algebra of overrides -/

/-- Claim C15: two overrides that assign different fields commute: when both
arguments are valid the two orders return the same configuration, and when
either is invalid the chain fails in both orders. -/
theorem overrides_of_distinct_fields_commute (c : KinesisClientLibConfiguration)
    (o1 o2 : Override) (hd : List.Disjoint o1.assigns o2.assigns) :
    ((applyOverride c o1).result = .ok () → (applyOverride c o2).result = .ok () →
      chain c [o1, o2] = chain c [o2, o1] ∧ (chain c [o1, o2]).result = .ok ()) ∧
    (((applyOverride c o1).result ≠ .ok () ∨ (applyOverride c o2).result ≠ .ok ()) →
      (∃ e, (chain c [o1, o2]).result = .error e) ∧
      (∃ e, (chain c [o2, o1]).result = .error e)) := by
  constructor
  · intro h1 h2
    rw [chain_pair_ok c o1 o2 h1 h2, chain_pair_ok c o2 o1 h2 h1,
      applyOverride_commute c o1 o2 hd h1 h2]
    exact ⟨rfl, rfl⟩
  · intro h
    exact ⟨chain_pair_error c o1 o2 h, chain_pair_error c o2 o1 h.symm⟩

/-- Claim C15 on `sampleConfig`: `WithMaxRecords(500)` and
`WithFailoverTimeMillis(10000)` commute; `WithRegionName("")` with
`WithWorkerThreadPoolSize(4)` fails in both orders. -/
theorem overrides_of_distinct_fields_commute_witness :
    List.Disjoint (Override.WithMaxRecords 500).assigns
      (Override.WithFailoverTimeMillis 10000).assigns ∧
    (chain sampleConfig [.WithMaxRecords 500, .WithFailoverTimeMillis 10000] =
        chain sampleConfig [.WithFailoverTimeMillis 10000, .WithMaxRecords 500] ∧
      (chain sampleConfig [.WithMaxRecords 500, .WithFailoverTimeMillis 10000]).result =
        .ok ()) ∧
    List.Disjoint (Override.WithRegionName "").assigns
      (Override.WithWorkerThreadPoolSize 4).assigns ∧
    ((∃ e, (chain sampleConfig [.WithRegionName "", .WithWorkerThreadPoolSize 4]).result =
        .error e) ∧
      (∃ e, (chain sampleConfig [.WithWorkerThreadPoolSize 4, .WithRegionName ""]).result =
        .error e)) :=
  ⟨by simp [Override.assigns],
   (overrides_of_distinct_fields_commute sampleConfig (.WithMaxRecords 500)
      (.WithFailoverTimeMillis 10000) (by simp [Override.assigns])).1 rfl rfl,
   by simp [Override.assigns],
   (overrides_of_distinct_fields_commute sampleConfig (.WithRegionName "")
      (.WithWorkerThreadPoolSize 4) (by simp [Override.assigns])).2
     (Or.inl (by simp [applyOverride, WithRegionName, checkIsValueNotEmpty_error]))⟩

/-- Claim C16: of two overrides with valid arguments that assign the same fields
the last one wins, and repeating an override changes nothing; in particular a
timestamp override followed by a mode override equals the mode override alone,
and conversely. -/
theorem override_last_write_wins (c : KinesisClientLibConfiguration) (o1 o2 : Override)
    (hs : o1.assigns = o2.assigns)
    (h1 : (applyOverride c o1).result = .ok ()) (h2 : (applyOverride c o2).result = .ok ()) :
    chain c [o1, o2] = chain c [o2] ∧ chain c [o1, o1] = chain c [o1] ∧
    (∀ (t : Option Time) (m : InitialPositionInStream),
      chain c [.WithTimestampAtInitialPositionInStream t, .WithInitialPositionInStream m] =
        chain c [.WithInitialPositionInStream m] ∧
      chain c [.WithInitialPositionInStream m, .WithTimestampAtInitialPositionInStream t] =
        chain c [.WithTimestampAtInitialPositionInStream t]) := by
  refine ⟨?_, ?_, ?_⟩
  · rw [chain_pair_ok c o1 o2 h1 h2, chain_single_ok c o2 h2,
      applyOverride_overwrite c o1 o2 hs h2]
  · rw [chain_pair_ok c o1 o1 h1 h1, chain_single_ok c o1 h1,
      applyOverride_overwrite c o1 o1 rfl h1]
  · intro t m
    exact ⟨rfl, rfl⟩

/-- Claim C16 on `sampleConfig`: `WithMaxRecords(500).WithMaxRecords(700)` equals
`WithMaxRecords(700)`, `WithMaxRecords(500)` twice equals once, and a timestamp
followed by mode latest equals mode latest alone. -/
theorem override_last_write_wins_witness :
    ((Override.WithMaxRecords 500).assigns = (Override.WithMaxRecords 700).assigns ∧
      (applyOverride sampleConfig (.WithMaxRecords 500)).result = .ok () ∧
      (applyOverride sampleConfig (.WithMaxRecords 700)).result = .ok ()) ∧
    chain sampleConfig [.WithMaxRecords 500, .WithMaxRecords 700] =
      chain sampleConfig [.WithMaxRecords 700] ∧
    chain sampleConfig [.WithMaxRecords 500, .WithMaxRecords 500] =
      chain sampleConfig [.WithMaxRecords 500] ∧
    chain sampleConfig [.WithTimestampAtInitialPositionInStream (some 1700000000),
        .WithInitialPositionInStream .LATEST] =
      chain sampleConfig [.WithInitialPositionInStream .LATEST] :=
  ⟨⟨rfl, rfl, rfl⟩,
   (override_last_write_wins sampleConfig (.WithMaxRecords 500) (.WithMaxRecords 700)
      rfl rfl rfl).1,
   (override_last_write_wins sampleConfig (.WithMaxRecords 500) (.WithMaxRecords 700)
      rfl rfl rfl).2.1,
   ((override_last_write_wins sampleConfig (.WithMaxRecords 500) (.WithMaxRecords 700)
      rfl rfl rfl).2.2 (some 1700000000) .LATEST).1⟩

end KclConfig
